import Mathlib

/-!
Verification of the jsonrpc package (a JSON-RPC 1.0 client and server over
HTTP) against its specification.  The Go source is shallowly embedded:

* reflection types (`reflect.Type`) become the inductive `GoType`;
* the registry (`Server.methods`, a Go map) becomes an association list;
* external collaborators (the JSON marshaller, the wire codec, the HTTP
  transport) are out of scope per the spec and enter as oracle values in
  environment records;
* Go `uint64` arithmetic is `Nat` with an explicit `% 2 ^ 64`.
-/

deriving instance DecidableEq for Except

namespace Jsonrpc

/-- Embedding of `reflect.Type` restricted to what the registration logic
inspects: pointer types, and base types carrying `PkgPath()` and `Name()`.
`base "" n` is a predeclared or unnamed type (empty package path). -/
inductive GoType where
  | ptr (elem : GoType)
  | base (pkgPath : String) (name : String)
deriving DecidableEq

/-- `typeOfRequest`: the `http.Request` struct type (defined in package
`net/http` with name `Request`). -/
def typeOfRequest : GoType := .base "net/http" "Request"

/-- `typeOfError`: the predeclared `error` interface type (empty package
path). -/
def typeOfError : GoType := .base "" "error"

/-- `t.Kind() == reflect.Ptr`. -/
def GoType.isPtrKind : GoType → Bool
  | .ptr _ => true
  | .base _ _ => false

/-- `t.Elem()` for a pointer type.  Go panics on non-pointers; the
registration code only calls it after a pointer-kind check, so the value on
`base` is never reached there. -/
def GoType.elem : GoType → GoType
  | .ptr e => e
  | t => t

/-- `t.Name()`. -/
def GoType.name : GoType → String
  | .ptr _ => ""
  | .base _ n => n

/-- `t.PkgPath()` of a base type. -/
def GoType.pkgPathOf : GoType → String
  | .ptr _ => ""
  | .base p _ => p

/-- `isExported` from the source: true if the first rune of the name is
upper case (`utf8.DecodeRuneInString` on the empty string yields
`RuneError`, which is not upper case). -/
def isExported (name : String) : Bool :=
  match name.data with
  | [] => false
  | c :: _ => c.isUpper

/-- `isExportedOrBuiltin` from the source: strip pointers, then the type is
acceptable if its name is exported or its package path is empty. -/
def isExportedOrBuiltin (t : GoType) : Bool :=
  match t with
  | .ptr e => isExportedOrBuiltin e
  | .base p n => isExported n || p == ""

/-- The type of a Go function value as seen by reflection: the package path
of the function type (empty unless the value has a defined, named function
type) and the input and output type lists. -/
structure HandlerType where
  pkgPath : String
  ins : List GoType
  outs : List GoType
deriving DecidableEq

/-- A handler value.  `funcId` models the identity of the underlying
function value; `identExported` records the ground truth of whether the
function identifier is exported (callable from outside its defining
scope) — Go reflection does not expose this for a plain function value, so
the registration code cannot and does not read it. -/
structure Handler where
  funcId : Nat
  identExported : Bool
  type : HandlerType
deriving DecidableEq

/-- `methodSpec` from the source: the callable plus the element types of
its argument and reply pointer parameters. -/
structure methodSpec where
  method : Handler
  argsType : GoType
  replyType : GoType
deriving DecidableEq

/-- The registry.  The Go map is embedded as an association list; the Go
code never inserts a key twice, and a nil map behaves as the empty list on
both the lookup and the make-then-insert path. -/
structure Server where
  methods : List (String × methodSpec)
deriving DecidableEq

/-- The errors `Register` can return: `ErrHandlerNotExported`,
`ErrHandlerSignature`, and the formatted duplicate-name error. -/
inductive RegErr where
  | handlerNotExported
  | handlerSignature
  | alreadyDefined (method : String)
deriving DecidableEq

/-- `Server.Register` from the source, check for check in source order:
non-empty function-type package path → `ErrHandlerNotExported`; three
inputs with first `*http.Request` and second and third pointers to
exported-or-builtin types, one output of type `error`, anything else →
`ErrHandlerSignature`; then, under the lock, duplicate name → the
already-defined error, otherwise insert.  Returns the new server state and
the returned error. -/
def Server.Register (s : Server) (method : String) (handler : Handler) :
    Server × Option RegErr :=
  let tMethod := handler.type
  if tMethod.pkgPath ≠ "" then
    (s, some .handlerNotExported)
  else
    match tMethod.ins with
    | [reqType, args, reply] =>
      if !(reqType.isPtrKind && reqType.elem == typeOfRequest) then
        (s, some .handlerSignature)
      else if !(args.isPtrKind && isExportedOrBuiltin args) then
        (s, some .handlerSignature)
      else if !(reply.isPtrKind && isExportedOrBuiltin reply) then
        (s, some .handlerSignature)
      else
        match tMethod.outs with
        | [returnType] =>
          if returnType ≠ typeOfError then
            (s, some .handlerSignature)
          else
            match s.methods.lookup method with
            | some _ => (s, some (.alreadyDefined method))
            | none =>
              ({ methods := (method, ⟨handler, args.elem, reply.elem⟩) :: s.methods }, none)
        | _ => (s, some .handlerSignature)
    | _ => (s, some .handlerSignature)

/-- `Server.get` from the source: look the name up in the map; a missing
entry yields the cannot-find-method error. -/
def Server.get (s : Server) (method : String) : Option methodSpec × Option String :=
  match s.methods.lookup method with
  | some ms => (some ms, none)
  | none => (none, some ("rpc: can\x27t find method \x22" ++ method ++ "\x22"))

/-- The signature rules of registration, read off the checks of
`Register`: exactly three inputs, the first a pointer to `http.Request`,
the second and third pointers to exported-or-builtin types, exactly one
output of type `error`. -/
def signatureOk (t : HandlerType) : Bool :=
  match t.ins, t.outs with
  | [reqType, args, reply], [returnType] =>
    (reqType.isPtrKind && reqType.elem == typeOfRequest)
      && (args.isPtrKind && isExportedOrBuiltin args)
      && (reply.isPtrKind && isExportedOrBuiltin reply)
      && (returnType == typeOfError)
  | _, _ => false

/-- A handler that passes the whole registration validation: empty
function-type package path and a conforming signature. -/
def validHandler (h : Handler) : Bool :=
  (h.type.pkgPath == "") && signatureOk h.type

/-! ## Dispatcher (`Server.ServeHTTP`) -/

/-- `http.StatusOK`. -/
def StatusOK : Nat := 200

/-- `http.StatusBadRequest`. -/
def StatusBadRequest : Nat := 400

/-- `http.StatusMethodNotAllowed`. -/
def StatusMethodNotAllowed : Nat := 405

/-- What the dispatcher does to the response writer, in order.  Writes
delegated to the external codec are recorded abstractly (the codec is an
out-of-scope collaborator), so only headers set by this package appear as
`setHeader` events. -/
inductive WriteEvent where
  | setHeader (key value : String)
  | writeHeader (status : Nat)
  | write (body : String)
  | codecWriteError (status : Nat) (msg : String)
  | codecWriteResponse
deriving DecidableEq

/-- `WriteError` from the source: set the plain-text content type, write
the status, print the message. -/
def WriteError (status : Nat) (msg : String) : List WriteEvent :=
  [.setHeader "Content-Type" "text/plain; charset=utf-8",
   .writeHeader status,
   .write msg]

/-- Oracle for the external codec request object built from the inbound
message: the outcome of `codecReq.Method()` and of
`codecReq.ReadRequest(args)`. -/
structure CodecRequest where
  methodResult : Except String String
  readRequestErr : Option String
deriving DecidableEq

/-- Per-dispatch environment: the codec request oracle, and the error
value returned by the invoked handler (`errValue[0]`, nil or an error). -/
structure DispatchEnv where
  codecReq : CodecRequest
  handlerErr : Option String
deriving DecidableEq

/-- The inbound HTTP request, restricted to what the dispatcher reads. -/
structure Request where
  method : String
deriving DecidableEq

/-- `Server.ServeHTTP` from the source: non-POST → `WriteError` with the
method-not-allowed status; codec method parse failure, registry miss, or
argument decode failure → codec-written bad-request error; otherwise
invoke the handler, set the nosniff header, and write the response or the
handler fault. -/
def Server.ServeHTTP (s : Server) (env : DispatchEnv) (r : Request) :
    List WriteEvent :=
  if r.method ≠ "POST" then
    WriteError StatusMethodNotAllowed ("rpc: POST method required, received " ++ r.method)
  else
    match env.codecReq.methodResult with
    | .error errMethod => [.codecWriteError StatusBadRequest errMethod]
    | .ok method =>
      match s.get method with
      | (_, some errGet) => [.codecWriteError StatusBadRequest errGet]
      | (_, none) =>
        match env.codecReq.readRequestErr with
        | some errRead => [.codecWriteError StatusBadRequest errRead]
        | none =>
          let statusCode :=
            match env.handlerErr with
            | some _ => StatusBadRequest
            | none => StatusOK
          .setHeader "x-content-type-options" "nosniff" ::
            (match env.handlerErr with
             | none => [.codecWriteResponse]
             | some errResult => [.codecWriteError statusCode errResult])

/-! ## Client (`Client.Call`, `DecodeReply`, envelopes) -/

/-- Modelled from the spec: the wire fault object (`Error` in the source,
defined in a codec file absent from `src/`); at minimum a human-readable
message, satisfying the error contract. -/
structure Error where
  message : String
deriving DecidableEq

/-- The decoded response envelope `clientResponse`: a `result` raw message
pointer, an `error` pointer, and the echoed `id` raw message pointer, each
possibly nil. -/
structure clientResponse where
  version : String
  result : Option String
  error : Option Error
  id : Option String
deriving DecidableEq

/-- The failures `Call` can return, tagged by where they arose. -/
inductive CError where
  | storeErr (msg : String)
  | encodeErr (msg : String)
  | requestErr (msg : String)
  | transportErr (msg : String)
  | fault (e : Error)
  | decodeErr (msg : String)
  | unmarshalErr (msg : String)
  | closeErr (msg : String)
deriving DecidableEq

/-- Outcome of `DecodeReply`: an error returned to the caller (the reply
value untouched except possibly by a failed unmarshal), success with the
raw result bytes unmarshalled into the reply, or the nil-pointer
dereference panic of `*response.Result` when both `error` and `result`
are absent. -/
inductive DRResult where
  | retErr (e : CError)
  | ok (populatedFrom : String)
  | nilPanic
deriving DecidableEq

/-- `DecodeReply` from the source.  The external JSON decode of the body
is an oracle (`body` is its outcome), and `um raw` is the outcome of
`json.Unmarshal(raw, reply)` (`none` on success).  Source order: decode
failure returned first; then a non-nil `response.Error` is returned; then
`*response.Result` is dereferenced unconditionally and unmarshalled. -/
def DecodeReply (um : String → Option String) (body : Except String clientResponse) :
    DRResult :=
  match body with
  | .error e => .retErr (.decodeErr e)
  | .ok response =>
    match response.error with
    | some err => .retErr (.fault err)
    | none =>
      match response.result with
      | none => .nilPanic
      | some raw =>
        match um raw with
        | some e => .retErr (.unmarshalErr e)
        | none => .ok raw

/-- The transport response: HTTP status code and the body (given as the
outcome of decoding it into a `clientResponse`). -/
structure HttpResponse where
  statusCode : Nat
  body : Except String clientResponse
deriving DecidableEq

/-- `checkClose` from the source: if the close failed and no error is
recorded yet, record the close failure; otherwise keep the existing
error. -/
def checkClose (err : Option CError) (closeErr : Option String) : Option CError :=
  match closeErr, err with
  | some e, none => some (.closeErr e)
  | _, _ => err

/-- Environment of one `Call` execution: oracles for `IDStore.New`, the
session close, `EncodeCall` (external JSON marshal), `http.NewRequest`,
`RoundTrip`, the body close, and `json.Unmarshal` of the result. -/
structure CallEnv where
  newSession : Except String Nat
  sessionCloseErr : Option String
  encodeResult : Except String String
  newRequestErr : Option String
  roundTrip : Except String HttpResponse
  bodyCloseErr : Option String
  um : String → Option String

/-- How one `Call` execution ends: a normal return with its error, or a
propagated panic (from `DecodeReply`). -/
inductive CallOutcome where
  | ret (err : Option CError)
  | panicked
deriving DecidableEq

/-- Result of one `Call` execution: the outcome plus whether the deferred
`idSession.Close` and `resp.Body.Close` ran. -/
structure CallResult where
  outcome : CallOutcome
  sessionClosed : Bool
  bodyClosed : Bool
deriving DecidableEq

/-- `Client.Call` from the source.  Each early return carries the deferred
closes that are pending at that point; the two defers run in LIFO order
(body close before session close) and run on panic as well.  The HTTP
status of the response is never read. -/
def Call (env : CallEnv) : CallResult :=
  match env.newSession with
  | .error e => ⟨.ret (some (.storeErr e)), false, false⟩
  | .ok _ =>
    match env.encodeResult with
    | .error e => ⟨.ret (checkClose (some (.encodeErr e)) env.sessionCloseErr), true, false⟩
    | .ok _ =>
      match env.newRequestErr with
      | some e => ⟨.ret (checkClose (some (.requestErr e)) env.sessionCloseErr), true, false⟩
      | none =>
        match env.roundTrip with
        | .error e => ⟨.ret (checkClose (some (.transportErr e)) env.sessionCloseErr), true, false⟩
        | .ok resp =>
          match DecodeReply env.um resp.body with
          | .nilPanic => ⟨.panicked, true, true⟩
          | .retErr e =>
            ⟨.ret (checkClose (checkClose (some e) env.bodyCloseErr) env.sessionCloseErr),
             true, true⟩
          | .ok _ =>
            ⟨.ret (checkClose (checkClose none env.bodyCloseErr) env.sessionCloseErr),
             true, true⟩

/-- Whether the execution acquired an identifier session. -/
def sessionAcquired (env : CallEnv) : Bool :=
  match env.newSession with
  | .ok _ => true
  | .error _ => false

/-- Whether the execution obtained a transport response (all steps before
`RoundTrip` succeeded and `RoundTrip` succeeded). -/
def bodyObtained (env : CallEnv) : Bool :=
  match env.newSession, env.encodeResult, env.newRequestErr, env.roundTrip with
  | .ok _, .ok _, none, .ok _ => true
  | _, _, _, _ => false

/-- The first non-cleanup failure of the execution, following the spec
words: the first failure among session creation, encoding, request
construction, transport, and reply decoding, in that order. -/
def firstPrimaryFailure (env : CallEnv) : Option CError :=
  match env.newSession with
  | .error e => some (.storeErr e)
  | .ok _ =>
    match env.encodeResult with
    | .error e => some (.encodeErr e)
    | .ok _ =>
      match env.newRequestErr with
      | some e => some (.requestErr e)
      | none =>
        match env.roundTrip with
        | .error e => some (.transportErr e)
        | .ok resp =>
          match DecodeReply env.um resp.body with
          | .retErr e => some e
          | _ => none

/-- First-of-two option choice, used to state that the first failure
wins. -/
def firstSome (a b : Option CError) : Option CError :=
  match a with
  | some x => some x
  | none => b

/-! ## Default identifier store -/

/-- The modulus of Go `uint64` arithmetic. -/
def UINT64_MOD : Nat := 2 ^ 64

/-- `defaultIDStore`: a single `uint64` counter (`curr < 2 ^ 64` holds for
every reachable state). -/
structure defaultIDStore where
  curr : Nat
deriving DecidableEq

/-- `defaultIDSession`: carries the issued id. -/
structure defaultIDSession where
  id : Nat
deriving DecidableEq

/-- `DefaultIDStore()`: the zero-valued counter. -/
def DefaultIDStore : defaultIDStore := ⟨0⟩

/-- `defaultIDStore.New` from the source: `atomic.AddUint64(&store.curr, 1)`
(wrapping 64-bit addition) and a session carrying the new value.  Returns
the updated store and the session. -/
def defaultIDStore.New (store : defaultIDStore) : defaultIDStore × defaultIDSession :=
  let id := (store.curr + 1) % UINT64_MOD
  (⟨id⟩, ⟨id⟩)

/-- `defaultIDSession.ID` from the source. -/
def defaultIDSession.ID (session : defaultIDSession) : Nat :=
  session.id

/-- `defaultIDSession.Close` from the source: returns nil. -/
def defaultIDSession.Close (_session : defaultIDSession) : Option String :=
  none

/-- The store state after `k` calls to `New`, starting from
`DefaultIDStore()`. -/
def storeAfter : Nat → defaultIDStore
  | 0 => DefaultIDStore
  | k + 1 => ((storeAfter k).New).1

/-- The identifier issued by call number `k` (zero-based) of a process
that only ever calls `New` on the default store. -/
def idOfCall (k : Nat) : Nat :=
  (((storeAfter k).New).2).ID

/-! ## Request envelope (`EncodeCall`) and its round trip -/

/-- The JSON values that `id` and `params` range over. -/
inductive Json where
  | null
  | bool (b : Bool)
  | num (n : Int)
  | str (s : String)
  | arr (elems : List Json)
  | obj (fields : List (String × Json))

/-- Modelled from the spec: the protocol version constant `Version`
(defined in the codec file absent from `src/`); the protocol is
JSON-RPC 1.0. -/
def Version : String := "1.0"

/-- `clientRequest` from the source: version, id, method, params. -/
structure clientRequest where
  version : String
  id : Json
  method : String
  params : Json

/-- The JSON object `json.Marshal` produces from a `clientRequest`,
following its field tags `jsonrpc`, `id`, `method`, `params`. -/
def marshalClientRequest (r : clientRequest) : Json :=
  .obj [("jsonrpc", .str r.version), ("id", r.id),
        ("method", .str r.method), ("params", r.params)]

/-- `EncodeCall` from the source: marshal
`clientRequest{Version, id, method, params}`. -/
def EncodeCall (id : Json) (method : String) (params : Json) : Json :=
  marshalClientRequest ⟨Version, id, method, params⟩

/-- Modelled from the spec: decoding a request envelope (done by the
server-side codec, absent from `src/`) reads the `jsonrpc`, `id`,
`method`, `params` members of the wire object. -/
def decodeClientRequest (j : Json) : Option clientRequest :=
  match j with
  | .obj fields =>
    match fields.lookup "jsonrpc", fields.lookup "id",
          fields.lookup "method", fields.lookup "params" with
    | some (.str v), some id, some (.str m), some params =>
      some ⟨v, id, m, params⟩
    | _, _, _, _ => none
  | _ => none

/-! ## Lemmas about registration -/

/-- A handler whose function type has a non-empty package path is turned
away with `ErrHandlerNotExported` before anything else is inspected. -/
theorem register_notExported_eq (s : Server) (m : String) (h : Handler)
    (hp : h.type.pkgPath ≠ "") :
    s.Register m h = (s, some RegErr.handlerNotExported) := by
  unfold Server.Register
  simp [hp]

/-- A handler with empty package path but a signature violating the rules
is turned away with `ErrHandlerSignature`, leaving the server unchanged. -/
theorem register_badSignature_eq (s : Server) (m : String) (h : Handler)
    (hp : h.type.pkgPath = "") (hs : signatureOk h.type = false) :
    s.Register m h = (s, some RegErr.handlerSignature) := by
  obtain ⟨fid, ie, pp, ins, outs⟩ := h
  simp only at hp
  subst hp
  unfold Server.Register signatureOk at *
  rcases ins with _ | ⟨a, _ | ⟨b, _ | ⟨c, _ | ⟨d, rest⟩⟩⟩⟩ <;>
    rcases outs with _ | ⟨r, _ | ⟨r2, rest2⟩⟩ <;>
    simp_all

/-- Registering a fully valid handler under a free name inserts a
descriptor carrying that handler and returns no error. -/
theorem register_valid_free (s : Server) (m : String) (h : Handler)
    (hv : validHandler h = true) (hf : s.methods.lookup m = none) :
    ∃ ms : methodSpec, ms.method = h ∧
      s.Register m h = ({ methods := (m, ms) :: s.methods }, none) := by
  obtain ⟨fid, ie, pp, ins, outs⟩ := h
  rcases ins with _ | ⟨a, _ | ⟨b, _ | ⟨c, _ | ⟨d, rest⟩⟩⟩⟩ <;>
    rcases outs with _ | ⟨r, _ | ⟨r2, rest2⟩⟩ <;>
    simp [validHandler, signatureOk] at hv
  obtain ⟨hpp, ⟨⟨⟨ha1, ha2⟩, hb1, hb2⟩, hc1, hc2⟩, hr⟩ := hv
  subst hpp
  subst hr
  refine ⟨⟨⟨fid, ie, "", [a, b, c], [typeOfError]⟩, b.elem, c.elem⟩, rfl, ?_⟩
  unfold Server.Register
  simp [ha1, ha2, hb1, hb2, hc1, hc2, hf]

/-- Registering a fully valid handler under a bound name returns the
already-defined error and leaves the server unchanged. -/
theorem register_valid_bound (s : Server) (m : String) (h : Handler)
    (ms : methodSpec) (hv : validHandler h = true)
    (hb : s.methods.lookup m = some ms) :
    s.Register m h = (s, some (RegErr.alreadyDefined m)) := by
  obtain ⟨fid, ie, pp, ins, outs⟩ := h
  rcases ins with _ | ⟨a, _ | ⟨b, _ | ⟨c, _ | ⟨d, rest⟩⟩⟩⟩ <;>
    rcases outs with _ | ⟨r, _ | ⟨r2, rest2⟩⟩ <;>
    simp [validHandler, signatureOk] at hv
  obtain ⟨hpp, ⟨⟨⟨ha1, ha2⟩, hb1, hb2⟩, hc1, hc2⟩, hr⟩ := hv
  subst hpp
  subst hr
  unfold Server.Register
  simp [ha1, ha2, hb1, hb2, hc1, hc2, hb]

/-- Whenever `Register` returns an error it leaves the server exactly as
it was. -/
theorem register_fail_unchanged (s : Server) (m : String) (h : Handler)
    (hne : (s.Register m h).2 ≠ none) :
    (s.Register m h).1 = s := by
  by_cases hp : h.type.pkgPath = ""
  · by_cases hs : signatureOk h.type = true
    · match hb : s.methods.lookup m with
      | some ms =>
        rw [register_valid_bound s m h ms (by simp [validHandler, hp, hs]) hb]
      | none =>
        obtain ⟨ms, _, heq⟩ :=
          register_valid_free s m h (by simp [validHandler, hp, hs]) hb
        rw [heq] at hne
        simp at hne
    · rw [register_badSignature_eq s m h hp (by simpa using hs)]
  · rw [register_notExported_eq s m h hp]

/-- If `Register` succeeds, the name was free beforehand. -/
theorem register_success_free (s : Server) (m : String) (h : Handler)
    (hok : (s.Register m h).2 = none) :
    s.methods.lookup m = none := by
  by_cases hp : h.type.pkgPath = ""
  · by_cases hs : signatureOk h.type = true
    · match hb : s.methods.lookup m with
      | some ms =>
        rw [register_valid_bound s m h ms (by simp [validHandler, hp, hs]) hb] at hok
        simp at hok
      | none => rfl
    · rw [register_badSignature_eq s m h hp (by simpa using hs)] at hok
      simp at hok
  · rw [register_notExported_eq s m h hp] at hok
    simp at hok

/-! ## Concrete handlers used as witnesses and counterexamples -/

/-- An exported struct type usable as argument or reply payload. -/
def ArgsT : GoType := .base "example.com/app" "Args"

/-- A fully valid handler: anonymous function type (empty package path),
inputs `(*http.Request, *Args, *Args)`, one `error` output. -/
def hGood : Handler :=
  ⟨1, true, ⟨"", [.ptr typeOfRequest, .ptr ArgsT, .ptr ArgsT], [typeOfError]⟩⟩

/-- A second valid handler, distinct from `hGood`. -/
def hGood2 : Handler :=
  ⟨2, true, ⟨"", [.ptr typeOfRequest, .ptr ArgsT, .ptr ArgsT], [typeOfError]⟩⟩

/-- A handler of a defined (named) function type that also has the wrong
arity: zero inputs and zero outputs. -/
def hNamedBadArity : Handler :=
  ⟨3, true, ⟨"example.com/app", [], []⟩⟩

/-- A handler with anonymous function type and the wrong arity. -/
def hBadArity : Handler :=
  ⟨4, true, ⟨"", [], []⟩⟩

/-- An unexported plain function with a conforming signature: the function
identifier is not callable from outside its defining scope
(`identExported = false`), but its type is an anonymous function type, so
reflection reports an empty package path for it. -/
def hUnexported : Handler :=
  ⟨5, false, ⟨"", [.ptr typeOfRequest, .ptr ArgsT, .ptr ArgsT], [typeOfError]⟩⟩

/-! ## Claim C1 -/

/-- C1: for every valid handler, `Register(name, handler)` succeeds the
first time the name is bound; every subsequent `Register` with the same
name and a valid handler fails with the duplicate-name (already-defined)
fault, any subsequent `Register` with the same name leaves the binding
untouched, and lookup of the name still returns the originally registered
descriptor — a name once bound is never replaced. -/
theorem c1_register_once_never_replaced (s : Server) (m : String) (h : Handler)
    (hv : validHandler h = true) (hf : s.methods.lookup m = none) :
    (s.Register m h).2 = none ∧
    ∃ ms : methodSpec, ms.method = h ∧
      ((s.Register m h).1).get m = (some ms, none) ∧
      ∀ h2 : Handler,
        ((((s.Register m h).1).Register m h2).2) ≠ none ∧
        ((((s.Register m h).1).Register m h2).1).get m = (some ms, none) ∧
        (validHandler h2 = true →
          (((s.Register m h).1).Register m h2).2 = some (RegErr.alreadyDefined m)) := by
  obtain ⟨ms, hmsh, heq⟩ := register_valid_free s m h hv hf
  have hs1 : (s.Register m h).1 = { methods := (m, ms) :: s.methods } := by rw [heq]
  have hs2 : (s.Register m h).2 = none := by rw [heq]
  have hbound : ({ methods := (m, ms) :: s.methods } : Server).methods.lookup m = some ms := by
    simp [List.lookup]
  refine ⟨hs2, ms, hmsh, ?_, ?_⟩
  · rw [hs1]
    simp [Server.get, List.lookup]
  · intro h2
    have hne : (({ methods := (m, ms) :: s.methods } : Server).Register m h2).2 ≠ none := by
      intro hnone
      have hfree := register_success_free _ m h2 hnone
      rw [hbound] at hfree
      exact Option.noConfusion hfree
    have hunch := register_fail_unchanged _ m h2 hne
    refine ⟨by rw [hs1]; exact hne, ?_, ?_⟩
    · rw [hs1, hunch]
      simp [Server.get, List.lookup]
    · intro hv2
      rw [hs1, register_valid_bound _ m h2 ms hv2 hbound]

/-- Witness for C1 at a concrete input: registering `hGood` under a free
name in the empty registry succeeds. -/
theorem c1_register_once_never_replaced_witness :
    ((Server.mk []).Register "Echo" hGood).2 = none :=
  (c1_register_once_never_replaced ⟨[]⟩ "Echo" hGood (by decide) rfl).1

/-! ## Claim C2 -/

/-- C2 counterexample: `hNamedBadArity` violates the signature rules (it
has zero inputs, not three), yet `Register` returns the not-exported
fault, not the signature-mismatch fault, because the package-path check
runs first. -/
theorem c2_signature_fault_counterexample :
    hNamedBadArity.type.ins.length ≠ 3 ∧
    ((Server.mk []).Register "M" hNamedBadArity).2 = some RegErr.handlerNotExported ∧
    RegErr.handlerNotExported ≠ RegErr.handlerSignature := by
  decide

/-- C2 amended: for every handler that passes the visibility (package
path) check and violates the signature rules — number of inputs not
three, first input not a pointer to `http.Request`, second or third input
not a pointer to an exported or builtin type, number of outputs not one,
or output not `error` — `Register` returns the signature-mismatch fault
and the registry is exactly as it was before the call. -/
theorem c2_bad_signature_rejected (s : Server) (m : String) (h : Handler)
    (hp : h.type.pkgPath = "") (hs : signatureOk h.type = false) :
    s.Register m h = (s, some RegErr.handlerSignature) :=
  register_badSignature_eq s m h hp hs

/-- Witness for the amended C2 at a concrete input: an anonymous-typed
handler with zero inputs is rejected with the signature fault, registry
unchanged. -/
theorem c2_bad_signature_rejected_witness :
    (Server.mk []).Register "M" hBadArity = (⟨[]⟩, some RegErr.handlerSignature) :=
  c2_bad_signature_rejected ⟨[]⟩ "M" hBadArity rfl rfl

/-! ## Claim C5 -/

/-- C5 counterexample: `hUnexported` is a handler that is not publicly
visible (its function identifier is unexported, hence not callable from
outside its defining scope), yet `Register` accepts it and inserts it into
the registry, because a plain function value has an anonymous function
type whose package path is empty — the only thing the code checks. -/
theorem c5_invisible_handler_counterexample :
    hUnexported.identExported = false ∧
    ((Server.mk []).Register "M" hUnexported).2 = none ∧
    (((Server.mk []).Register "M" hUnexported).1).methods.lookup "M" ≠ none := by
  decide

/-- C5 amended: `Register` returns the distinct not-exported fault (never
the signature-mismatch fault) exactly for handlers whose function type is
a defined type, i.e. whose reflected package path is non-empty, and no
such handler is ever inserted; visibility of the function identifier
itself is not inspected, so an unexported function of anonymous type is
not rejected. -/
theorem c5_named_type_not_exported (s : Server) (m : String) (h : Handler)
    (hp : h.type.pkgPath ≠ "") :
    s.Register m h = (s, some RegErr.handlerNotExported) ∧
    RegErr.handlerNotExported ≠ RegErr.handlerSignature :=
  ⟨register_notExported_eq s m h hp, by decide⟩

/-- Witness for the amended C5 at a concrete input. -/
theorem c5_named_type_not_exported_witness :
    (Server.mk []).Register "M" hNamedBadArity = (⟨[]⟩, some RegErr.handlerNotExported) ∧
    RegErr.handlerNotExported ≠ RegErr.handlerSignature :=
  c5_named_type_not_exported ⟨[]⟩ "M" hNamedBadArity (by decide)

/-! ## Claims C7 and C8 (dispatcher) -/

/-- A codec oracle whose method parse succeeds with `"Echo"` and whose
argument decode succeeds, with a handler that returns nil. -/
def envSimple : DispatchEnv := ⟨⟨.ok "Echo", none⟩, none⟩

/-- A descriptor and a one-entry registry binding `"Echo"`. -/
def msEcho : methodSpec := ⟨hGood, ArgsT, ArgsT⟩

/-- A registry with `"Echo"` bound. -/
def sEcho : Server := ⟨[("Echo", msEcho)]⟩

/-- C7 counterexample: a GET request is an inbound call the dispatcher
handles (it writes the method-not-allowed response), yet that response
carries no `x-content-type-options: nosniff` header — the header is set
only after the early-error returns. -/
theorem c7_nosniff_counterexample :
    WriteEvent.setHeader "x-content-type-options" "nosniff" ∉
      Server.ServeHTTP ⟨[]⟩ envSimple ⟨"GET"⟩ := by
  decide

/-- C7 amended: the dispatcher sets the nosniff header on every dispatch
that reaches handler invocation — POST method, method name parsed,
registry lookup succeeded, arguments decoded — covering both the success
and the application-fault response; the early-error paths
(method-not-allowed, method-parse-failure, method-not-found,
argument-decode-failure) return before the header is set. -/
theorem c7_nosniff_on_invocation_paths (s : Server) (env : DispatchEnv)
    (r : Request) (m : String)
    (hpost : r.method = "POST")
    (hm : env.codecReq.methodResult = .ok m)
    (hget : (s.get m).2 = none)
    (hread : env.codecReq.readRequestErr = none) :
    WriteEvent.setHeader "x-content-type-options" "nosniff" ∈
      Server.ServeHTTP s env r := by
  rcases hsg : s.get m with ⟨o, e⟩
  rw [hsg] at hget
  simp only at hget
  subst hget
  unfold Server.ServeHTTP
  simp [hpost, hm, hsg, hread]

/-- Witness for the amended C7 at a concrete input: a successful dispatch
of `"Echo"` carries the nosniff header. -/
theorem c7_nosniff_on_invocation_paths_witness :
    WriteEvent.setHeader "x-content-type-options" "nosniff" ∈
      Server.ServeHTTP sEcho envSimple ⟨"POST"⟩ :=
  c7_nosniff_on_invocation_paths sEcho envSimple ⟨"POST"⟩ "Echo"
    rfl rfl (by decide) rfl

/-- C8: every request whose method is not POST is answered by
`WriteError` with the method-not-allowed status and the plain-text
content type, and the answer is computed before consulting the registry
or the codec in any way: it is the same for every registry state and
every codec oracle. -/
theorem c8_non_post_rejected (s : Server) (env : DispatchEnv) (r : Request)
    (hm : r.method ≠ "POST") :
    Server.ServeHTTP s env r =
      WriteError StatusMethodNotAllowed
        ("rpc: POST method required, received " ++ r.method) ∧
    WriteEvent.setHeader "Content-Type" "text/plain; charset=utf-8" ∈
      Server.ServeHTTP s env r ∧
    WriteEvent.writeHeader StatusMethodNotAllowed ∈ Server.ServeHTTP s env r ∧
    ∀ (s2 : Server) (env2 : DispatchEnv),
      Server.ServeHTTP s2 env2 r = Server.ServeHTTP s env r := by
  refine ⟨?_, ?_, ?_, ?_⟩ <;>
    simp [Server.ServeHTTP, hm, WriteError]

/-- Witness for C8 at a concrete input: a GET request. -/
theorem c8_non_post_rejected_witness :
    Server.ServeHTTP ⟨[]⟩ envSimple ⟨"GET"⟩ =
      WriteError StatusMethodNotAllowed
        ("rpc: POST method required, received " ++ "GET") :=
  (c8_non_post_rejected ⟨[]⟩ envSimple ⟨"GET"⟩ (by decide)).1

/-! ## Lemmas about `checkClose` and `Call` -/

/-- A close failure never displaces an already recorded error. -/
theorem checkClose_some (x : CError) (c : Option String) :
    checkClose (some x) c = some x := by
  cases c <;> rfl

/-- With no earlier error, a close failure is recorded as the error. -/
theorem checkClose_none (c : Option String) :
    checkClose none c = Option.map CError.closeErr c := by
  cases c <;> rfl

/-- The session is closed on every exit path on which it was acquired. -/
theorem call_sessionClosed (env : CallEnv) (h : sessionAcquired env = true) :
    (Call env).sessionClosed = true := by
  rcases hns : env.newSession with e0 | sid
  · simp [sessionAcquired, hns] at h
  · rcases her : env.encodeResult with e0 | b
    · simp [Call, hns, her]
    · rcases hnr : env.newRequestErr with _ | e0
      · rcases hrt : env.roundTrip with e0 | resp
        · simp [Call, hns, her, hnr, hrt]
        · rcases hd : DecodeReply env.um resp.body with e1 | raw | _ <;>
            simp [Call, hns, her, hnr, hrt, hd]
      · simp [Call, hns, her, hnr]

/-- The response body is closed on every exit path on which a response was
obtained. -/
theorem call_bodyClosed (env : CallEnv) (h : bodyObtained env = true) :
    (Call env).bodyClosed = true := by
  rcases hns : env.newSession with e0 | sid
  · simp [bodyObtained, hns] at h
  · rcases her : env.encodeResult with e0 | b
    · simp [bodyObtained, hns, her] at h
    · rcases hnr : env.newRequestErr with _ | e0
      · rcases hrt : env.roundTrip with e0 | resp
        · simp [bodyObtained, hns, her, hnr, hrt] at h
        · rcases hd : DecodeReply env.um resp.body with e1 | raw | _ <;>
            simp [Call, hns, her, hnr, hrt, hd]
      · simp [bodyObtained, hns, her, hnr] at h

/-- The error returned by a (non-panicking) `Call` is the first primary
failure if one occurred, else the body-close failure if a body was
obtained and its close failed, else the session-close failure. -/
theorem call_err_eq (env : CallEnv) (e : Option CError)
    (h : (Call env).outcome = CallOutcome.ret e) :
    e = firstSome (firstPrimaryFailure env)
          (firstSome
            (if bodyObtained env then Option.map CError.closeErr env.bodyCloseErr else none)
            (if sessionAcquired env then Option.map CError.closeErr env.sessionCloseErr else none)) := by
  rcases hns : env.newSession with e0 | sid
  · simp [Call, hns] at h
    simp [firstPrimaryFailure, firstSome, sessionAcquired, bodyObtained, hns, ← h]
  · rcases her : env.encodeResult with e0 | b
    · simp [Call, hns, her, checkClose_some] at h
      simp [firstPrimaryFailure, firstSome, sessionAcquired, bodyObtained, hns, her, ← h]
    · rcases hnr : env.newRequestErr with _ | e0
      · rcases hrt : env.roundTrip with e0 | resp
        · simp [Call, hns, her, hnr, hrt, checkClose_some] at h
          simp [firstPrimaryFailure, firstSome, sessionAcquired, bodyObtained,
            hns, her, hnr, hrt, ← h]
        · rcases hd : DecodeReply env.um resp.body with e1 | raw | _
          · simp [Call, hns, her, hnr, hrt, hd, checkClose_some] at h
            simp [firstPrimaryFailure, firstSome, sessionAcquired, bodyObtained,
              hns, her, hnr, hrt, hd, ← h]
          · simp [Call, hns, her, hnr, hrt, hd, checkClose_none] at h
            simp [firstPrimaryFailure, firstSome, sessionAcquired, bodyObtained,
              hns, her, hnr, hrt, hd]
            rcases hbc : env.bodyCloseErr with _ | eb <;>
              rcases hsc : env.sessionCloseErr with _ | es <;>
              simp_all [checkClose, firstSome] <;>
              rw [← h]
          · simp [Call, hns, her, hnr, hrt, hd] at h
      · simp [Call, hns, her, hnr, checkClose_some] at h
        simp [firstPrimaryFailure, firstSome, sessionAcquired, bodyObtained,
          hns, her, hnr, ← h]

/-! ## Claim C4 -/

/-- C4: in every `Call` execution, the session is released on every exit
path on which it was acquired (success included), the response body is
released on every exit path on which a response was obtained, and the
error returned is the first primary failure when one occurred — a cleanup
(close) failure is surfaced only when no earlier failure exists, the body
close (which runs first) taking precedence over the session close. -/
theorem c4_cleanup_and_first_failure (env : CallEnv) :
    (sessionAcquired env = true → (Call env).sessionClosed = true) ∧
    (bodyObtained env = true → (Call env).bodyClosed = true) ∧
    (∀ e, (Call env).outcome = CallOutcome.ret e →
      e = firstSome (firstPrimaryFailure env)
            (firstSome
              (if bodyObtained env then Option.map CError.closeErr env.bodyCloseErr else none)
              (if sessionAcquired env then Option.map CError.closeErr env.sessionCloseErr else none))) :=
  ⟨fun h => call_sessionClosed env h,
   fun h => call_bodyClosed env h,
   fun e h => call_err_eq env e h⟩

/-- A concrete environment for the C4 witness: everything succeeds except
the body close, whose failure is surfaced because no earlier failure
exists. -/
def envBodyCloseFails : CallEnv where
  newSession := Except.ok 1
  sessionCloseErr := some "session close failed"
  encodeResult := Except.ok "body"
  newRequestErr := none
  roundTrip := Except.ok ⟨200, Except.ok ⟨"1.0", some "7", none, some "1"⟩⟩
  bodyCloseErr := some "body close failed"
  um := fun _ => none

/-- Witness for C4 at a concrete input: both closes run, and with no
primary failure the body-close failure is the returned error, masking the
later session-close failure. -/
theorem c4_cleanup_and_first_failure_witness :
    (Call envBodyCloseFails).sessionClosed = true ∧
    (Call envBodyCloseFails).bodyClosed = true ∧
    some (CError.closeErr "body close failed") =
      firstSome (firstPrimaryFailure envBodyCloseFails)
        (firstSome
          (if bodyObtained envBodyCloseFails then
            Option.map CError.closeErr envBodyCloseFails.bodyCloseErr else none)
          (if sessionAcquired envBodyCloseFails then
            Option.map CError.closeErr envBodyCloseFails.sessionCloseErr else none)) :=
  ⟨(c4_cleanup_and_first_failure envBodyCloseFails).1 rfl,
   (c4_cleanup_and_first_failure envBodyCloseFails).2.1 rfl,
   (c4_cleanup_and_first_failure envBodyCloseFails).2.2
     (some (CError.closeErr "body close failed")) rfl⟩

/-! ## Claim C3 -/

/-- C3: for every decoded response envelope, a present `error` member is
authoritative — `DecodeReply` returns that fault and never touches the
result (so `Call` returns it as its error); with `error` absent and a
`result` member present, the result is unmarshalled into the
caller-supplied reply value; and the outcome depends only on the body:
`Call` is insensitive to the HTTP status code of the response. -/
theorem c3_error_field_authoritative (um : String → Option String)
    (resp : clientResponse) :
    (∀ e, resp.error = some e →
      DecodeReply um (Except.ok resp) = DRResult.retErr (CError.fault e)) ∧
    (resp.error = none → ∀ raw, resp.result = some raw →
      DecodeReply um (Except.ok resp) =
        (match um raw with
         | some msg => DRResult.retErr (CError.unmarshalErr msg)
         | none => DRResult.ok raw)) ∧
    (∀ (env : CallEnv) (n1 n2 : Nat) (body : Except String clientResponse),
      Call { env with roundTrip := Except.ok ⟨n1, body⟩ } =
        Call { env with roundTrip := Except.ok ⟨n2, body⟩ }) ∧
    (∀ (env : CallEnv) (sid : Nat) (b : String) (n : Nat) (e : Error),
      env.newSession = Except.ok sid → env.encodeResult = Except.ok b →
      env.newRequestErr = none → env.roundTrip = Except.ok ⟨n, Except.ok resp⟩ →
      resp.error = some e →
      (Call env).outcome = CallOutcome.ret (some (CError.fault e))) := by
  refine ⟨?_, ?_, ?_, ?_⟩
  · intro e he
    unfold DecodeReply
    simp [he]
  · intro he raw hraw
    unfold DecodeReply
    simp [he, hraw]
  · intro env n1 n2 body
    obtain ⟨ns, sc, er, nr, rt, bc, um2⟩ := env
    cases ns <;> cases er <;> cases nr <;> rfl
  · intro env sid b n e h1 h2 h3 h4 he
    have hd : DecodeReply env.um (Except.ok resp) = DRResult.retErr (CError.fault e) := by
      unfold DecodeReply
      simp [he]
    simp [Call, h1, h2, h3, h4, hd, checkClose_some]

/-- Witness for C3 at concrete inputs: a response with an `error` member
fails with that fault, one with only a `result` member populates the
reply. -/
theorem c3_error_field_authoritative_witness :
    DecodeReply (fun _ => none) (Except.ok ⟨"1.0", none, some ⟨"boom"⟩, some "1"⟩) =
      DRResult.retErr (CError.fault ⟨"boom"⟩) ∧
    DecodeReply (fun _ => none) (Except.ok ⟨"1.0", some "7", none, some "1"⟩) =
      DRResult.ok "7" :=
  ⟨(c3_error_field_authoritative (fun _ => none) ⟨"1.0", none, some ⟨"boom"⟩, some "1"⟩).1
      ⟨"boom"⟩ rfl,
   (c3_error_field_authoritative (fun _ => none) ⟨"1.0", some "7", none, some "1"⟩).2.1
      rfl "7" rfl⟩

/-! ## Claim C10 -/

/-- C10: `DecodeReply` is total only when the decoded envelope has a
`result` or an `error` member: with `error` absent it dereferences
`*response.Result` unconditionally, so a response with neither member
present hits the nil-pointer dereference instead of returning an error. -/
theorem c10_nil_result_dereference (um : String → Option String)
    (resp : clientResponse) (he : resp.error = none) (hr : resp.result = none) :
    DecodeReply um (Except.ok resp) = DRResult.nilPanic := by
  unfold DecodeReply
  simp [he, hr]

/-- Witness for C10 at a concrete input: a response carrying only an id. -/
theorem c10_nil_result_dereference_witness :
    DecodeReply (fun _ => none) (Except.ok ⟨"1.0", none, none, some "1"⟩) =
      DRResult.nilPanic :=
  c10_nil_result_dereference (fun _ => none) ⟨"1.0", none, none, some "1"⟩ rfl rfl

/-! ## Claim C6 -/

/-- The counter state after `k` calls is `k` modulo `2 ^ 64`. -/
theorem storeAfter_curr (k : Nat) : (storeAfter k).curr = k % UINT64_MOD := by
  induction k with
  | zero => rfl
  | succ n ih =>
    show ((storeAfter n).New).1.curr = (n + 1) % UINT64_MOD
    unfold defaultIDStore.New
    rw [ih, Nat.mod_add_mod]

/-- The identifier issued by call `k` is `(k + 1)` modulo `2 ^ 64`. -/
theorem idOfCall_eq (k : Nat) : idOfCall k = (k + 1) % UINT64_MOD := by
  unfold idOfCall defaultIDStore.New defaultIDSession.ID
  rw [storeAfter_curr, Nat.mod_add_mod]

/-- C6 counterexample: the counter is 64-bit and wraps, so identifiers are
not unique across the process lifetime — call number `2 ^ 64` (zero
based) receives identifier 1 again, the identifier of call number 0. -/
theorem c6_wraparound_counterexample :
    idOfCall (2 ^ 64) = idOfCall 0 ∧ (2 ^ 64 : Nat) ≠ 0 := by
  constructor
  · rw [idOfCall_eq, idOfCall_eq]
    show (2 ^ 64 + 1) % UINT64_MOD = (0 + 1) % UINT64_MOD
    unfold UINT64_MOD
    rw [Nat.add_comm (2 ^ 64) 1, Nat.add_mod_right, Nat.zero_add]
  · exact (Nat.pos_pow_of_pos 64 (by norm_num)).ne'

/-- C6 amended: identifiers issued by the default store are strictly
increasing — hence pairwise distinct — as long as the 64-bit counter has
not wrapped (all calls with index below `2 ^ 64 - 1`); releasing (closing)
any session it issues is a no-op returning nil. -/
theorem c6_monotone_until_wrap (i j : Nat) (hij : i < j) (hj : j + 1 < UINT64_MOD) :
    idOfCall i < idOfCall j ∧
    ∀ session : defaultIDSession, session.Close = none := by
  constructor
  · rw [idOfCall_eq, idOfCall_eq]
    rw [Nat.mod_eq_of_lt (by omega), Nat.mod_eq_of_lt hj]
    omega
  · intro session
    rfl

/-- Witness for the amended C6 at concrete inputs: the first two calls
yield 1 < 2, and closing is a no-op. -/
theorem c6_monotone_until_wrap_witness :
    idOfCall 0 < idOfCall 1 ∧
    ∀ session : defaultIDSession, session.Close = none :=
  c6_monotone_until_wrap 0 1 (by norm_num) (by norm_num [UINT64_MOD])

/-! ## Claim C9 -/

/-- C9: encoding a call `(id, method, params)` into a request envelope and
then decoding that envelope yields the identical `(id, method, params)`
triple (together with the protocol version). -/
theorem c9_encode_decode_roundtrip (id : Json) (method : String) (params : Json) :
    decodeClientRequest (EncodeCall id method params) =
      some ⟨Version, id, method, params⟩ := by
  rfl

end Jsonrpc

